import Mathlib

/-!
Verification of the Active-Active cost-analysis repository.

This file gives a shallow embedding of the persistence layer
(`aa_database.py`), the report driver (`aa_report_automation.py`) and the
dashboard financial metrics (`app.py`), and proves or refutes the frozen
claims about them.

Modelling conventions:
* SQLite tables are lists of row structures; an in-memory `DB` value holds
  the four tables together with the next AUTOINCREMENT ids.
* Monetary values (SQLite REAL) are modelled as exact rationals `ℚ`.
* Timestamps (ISO strings, compared lexicographically by SQLite) are
  modelled as `Nat`, which preserves the chronological order.
* Operations wrapped in a transaction return `Except String DB`:
  `.ok db'` is commit, `.error e` is the Python exception after rollback
  (the caller still sees the pre-call `DB`).
* `INSERT OR REPLACE` under `PRAGMA foreign_keys = ON` deletes the
  conflicting row first; if `cluster_singles` rows still reference the
  deleted `result_id`, SQLite aborts the statement with
  "FOREIGN KEY constraint failed" (the replacement row always gets a fresh
  AUTOINCREMENT id, so the old children can never be re-attached).
-/

/-- Row of the `runs` table (`aa_database.py`, `_create_schema`). -/
structure RunRow where
  run_id : Nat
  run_timestamp : Nat
  jira_ticket : Option String
  total_clusters : Nat
  processed_clusters : Nat
  failed_clusters : Nat
  status : String
  csv_path : Option String
  completed_at : Option Nat
deriving DecidableEq, Repr

/-- Row of the `cluster_results` table; `UNIQUE(run_id, mc_uid)`. -/
structure ClusterResultRow where
  result_id : Nat
  run_id : Nat
  mc_uid : String
  processed_at : Nat
  status : String
  error_message : Option String
  total_savings : Option ℚ
  savings_percent : Option ℚ
deriving DecidableEq, Repr

/-- Row of the `cluster_singles` table; `result_id` is a foreign key into
`cluster_results`. `infra_json` is the decoded instance-type → count map. -/
structure ClusterSingleRow where
  single_id : Nat
  result_id : Nat
  cluster_uid : String
  cluster_type : String
  infra_json : List (String × Nat)
  instance_price : ℚ
  storage_price : ℚ
  total_price : ℚ
  total_instances : Option Nat
deriving DecidableEq, Repr

/-- Row of the `cluster_metadata` table (`mc_uid` is the primary key).
The schema has exactly these columns; `multi_az` is an INTEGER column
(Python writes 1/0/NULL). -/
structure ClusterMetadataRow where
  mc_uid : String
  cluster_name : Option String
  cloud_provider : Option String
  region : Option String
  account_id : Option String
  redis_version : Option String
  multi_az : Option Nat
  availability_zones : Option String
  storage_type : Option String
  created_at : Option String
  last_updated : Option Nat
deriving DecidableEq, Repr

/-- The whole SQLite database: the four tables plus the AUTOINCREMENT
counters for `cluster_results.result_id` and `cluster_singles.single_id`. -/
structure DB where
  runs : List RunRow
  cluster_results : List ClusterResultRow
  cluster_singles : List ClusterSingleRow
  cluster_metadata : List ClusterMetadataRow
  next_result_id : Nat
  next_single_id : Nat
deriving DecidableEq, Repr

/-- Python's `round(x, 2)` on the exact rational value: scale by 100 and
round half to even (banker's rounding), as Python's `round` does. -/
def roundHalfEven (q : ℚ) : ℤ :=
  let f : ℤ := ⌊q⌋
  let r : ℚ := q - f
  if r < 1/2 then f
  else if 1/2 < r then f + 1
  else if f % 2 = 0 then f else f + 1

/-- Round a rational to 2 decimal places (Python `round(x, 2)`). -/
def round2 (q : ℚ) : ℚ := (roundHalfEven (q * 100) : ℚ) / 100

/-- `is_cluster_processed` (`aa_database.py` lines 216-237): fetch the row
for `(run_id, mc_uid)` and report whether its status is `'success'`. -/
def is_cluster_processed (db : DB) (run_id : Nat) (mc_uid : String) : Bool :=
  match db.cluster_results.find? (fun r => r.run_id == run_id && r.mc_uid == mc_uid) with
  | some row => row.status == "success"
  | none => false

/-- Rows of `cluster_results` that conflict with an insert for
`(run_id, mc_uid)` under the `UNIQUE(run_id, mc_uid)` constraint. -/
def result_conflicts (db : DB) (run_id : Nat) (mc_uid : String) : List ClusterResultRow :=
  db.cluster_results.filter (fun r => r.run_id == run_id && r.mc_uid == mc_uid)

/-- Does any `cluster_singles` row reference this `result_id`? -/
def has_child_single (db : DB) (result_id : Nat) : Bool :=
  db.cluster_singles.any (fun s => s.result_id == result_id)

/-- `INSERT OR REPLACE INTO cluster_results ...` with
`PRAGMA foreign_keys = ON`.  The REPLACE deletes any row conflicting on
`UNIQUE(run_id, mc_uid)`; if such a row still has `cluster_singles`
children, the statement fails with a foreign-key error (verified SQLite
behaviour).  Otherwise the new row is appended with a fresh `result_id`,
which is also returned (`cursor.lastrowid`). -/
def insert_or_replace_result (db : DB) (run_id : Nat) (mc_uid : String)
    (processed_at : Nat) (status : String) (error_message : Option String)
    (total_savings savings_percent : Option ℚ) : Except String (DB × Nat) :=
  if (result_conflicts db run_id mc_uid).any (fun r => has_child_single db r.result_id) then
    .error "FOREIGN KEY constraint failed"
  else
    let rid := db.next_result_id
    let row : ClusterResultRow :=
      { result_id := rid, run_id := run_id, mc_uid := mc_uid,
        processed_at := processed_at, status := status,
        error_message := error_message, total_savings := total_savings,
        savings_percent := savings_percent }
    .ok ({ db with
            cluster_results :=
              db.cluster_results.filter
                (fun r => !(r.run_id == run_id && r.mc_uid == mc_uid)) ++ [row],
            next_result_id := rid + 1 }, rid)

/-- Python dict `{'instance': ..., 'storage': ..., 'total': ...}` as passed
to `save_cluster_result`.  (`instance` is a Lean keyword, hence the field
name `instance_price` for the `'instance'` key.) -/
structure PriceDict where
  instance_price : ℚ
  storage : ℚ
  total : ℚ
deriving DecidableEq, Repr

/-- Python dict `{'uid': ..., 'infra': ..., 'price': ...}`. -/
structure ClusterDict where
  uid : String
  infra : List (String × Nat)
  price : PriceDict
deriving DecidableEq, Repr

/-- `sum(c['infra'].values())`. -/
def sum_infra (infra : List (String × Nat)) : Nat := (infra.map (·.2)).sum

/-- `sum(c['price']['total'] for c, _ in clusters)`. -/
def total_current_of (clusters : List (ClusterDict × ClusterDict)) : ℚ :=
  (clusters.map (fun p => p.1.price.total)).sum

/-- `sum(o['price']['total'] for _, o in clusters)`. -/
def total_optimal_of (clusters : List (ClusterDict × ClusterDict)) : ℚ :=
  (clusters.map (fun p => p.2.price.total)).sum

/-- Plain `INSERT INTO cluster_singles ...`. -/
def insert_single (db : DB) (result_id : Nat) (c : ClusterDict)
    (cluster_type : String) : DB :=
  let row : ClusterSingleRow :=
    { single_id := db.next_single_id, result_id := result_id,
      cluster_uid := c.uid, cluster_type := cluster_type,
      infra_json := c.infra, instance_price := c.price.instance_price,
      storage_price := c.price.storage, total_price := c.price.total,
      total_instances := some (sum_infra c.infra) }
  { db with cluster_singles := db.cluster_singles ++ [row],
            next_single_id := db.next_single_id + 1 }

/-- `save_cluster_result` (`aa_database.py` lines 239-312): inside one
transaction compute the savings totals, `INSERT OR REPLACE` the result row
with status `'success'`, then insert a current and an optimal
`cluster_singles` row per pair.  On any error the transaction rolls back
(the caller's database is unchanged) and the exception propagates. -/
def save_cluster_result (db : DB) (run_id : Nat) (mc_uid : String)
    (clusters : List (ClusterDict × ClusterDict)) (now : Nat) :
    Except String DB :=
  match insert_or_replace_result db run_id mc_uid now "success" none
      (some (total_current_of clusters - total_optimal_of clusters))
      (some (if total_current_of clusters > 0 then
        (total_current_of clusters - total_optimal_of clusters)
          / total_current_of clusters * 100
      else 0)) with
  | .error e => .error e
  | .ok (db1, rid) =>
    .ok (clusters.foldl
      (fun d p => insert_single (insert_single d rid p.1 "current") rid p.2 "optimal") db1)

/-- `mark_cluster_failed` (`aa_database.py` lines 415-434): upsert a
`'failed'` result row carrying the error text.  The savings columns are not
in the INSERT list, so the replacement row stores NULL for them. -/
def mark_cluster_failed (db : DB) (run_id : Nat) (mc_uid : String)
    (error_message : String) (now : Nat) : Except String DB :=
  match insert_or_replace_result db run_id mc_uid now "failed"
      (some error_message) none none with
  | .error e => .error e
  | .ok (db1, _) => .ok db1

/-- `save_cluster_metadata` (`aa_database.py` lines 314-345):
`INSERT OR REPLACE INTO cluster_metadata` keyed on the primary key
`mc_uid` (no table references `cluster_metadata`, so the REPLACE always
succeeds).  Only the nine argument fields plus `last_updated` are in the
INSERT list; the `created_at` column is not, so it is stored as NULL. -/
def save_cluster_metadata (db : DB) (mc_uid : String)
    (cluster_name cloud_provider region account_id redis_version : Option String)
    (multi_az : Option Bool) (availability_zones storage_type : Option String)
    (now : Nat) : DB :=
  let row : ClusterMetadataRow :=
    { mc_uid := mc_uid, cluster_name := cluster_name,
      cloud_provider := cloud_provider, region := region,
      account_id := account_id, redis_version := redis_version,
      multi_az := multi_az.map (fun b => if b then 1 else 0),
      availability_zones := availability_zones, storage_type := storage_type,
      created_at := none, last_updated := some now }
  { db with cluster_metadata :=
      db.cluster_metadata.filter (fun m => !(m.mc_uid == mc_uid)) ++ [row] }

/-- `update_run_statistics` (`aa_database.py` lines 436-473): count the
success/failed result rows of the run and write the counts back. -/
def update_run_statistics (db : DB) (run_id : Nat) : DB × (Nat × Nat) :=
  let processed := (db.cluster_results.filter
    (fun r => r.run_id == run_id && r.status == "success")).length
  let failed := (db.cluster_results.filter
    (fun r => r.run_id == run_id && r.status == "failed")).length
  ({ db with runs := db.runs.map (fun r =>
      if r.run_id == run_id then
        { r with processed_clusters := processed, failed_clusters := failed }
      else r) }, (processed, failed))

/-- `complete_run` (`aa_database.py` lines 475-496): refresh the statistics,
then mark the run `'completed'` with a completion timestamp and csv path. -/
def complete_run (db : DB) (run_id : Nat) (csv_path : Option String) (now : Nat) : DB :=
  let db1 := (update_run_statistics db run_id).1
  { db1 with runs := db1.runs.map (fun r =>
      if r.run_id == run_id then
        { r with status := "completed", completed_at := some now, csv_path := csv_path }
      else r) }

/-- One element of the list returned by `get_total_savings_trend`. -/
structure TrendEntry where
  timestamp : Nat
  jira_ticket : Option String
  total_current : ℚ
  total_optimal : ℚ
  total_savings : ℚ
  savings_percent : ℚ
deriving DecidableEq, Repr

/-- The rows of the three-way join in `get_total_savings_trend` that belong
to run `r`:  `runs JOIN cluster_results ON run_id JOIN cluster_singles ON
result_id WHERE r.status = 'completed' AND cr.status = 'success'`,
restricted to one run (the `GROUP BY r.run_id` group). -/
def trend_join (db : DB) (r : RunRow) : List (ClusterResultRow × ClusterSingleRow) :=
  (db.cluster_results.filter
      (fun cr => cr.run_id == r.run_id && cr.status == "success")).flatMap
    (fun cr => (db.cluster_singles.filter
        (fun cs => cs.result_id == cr.result_id)).map (fun cs => (cr, cs)))

/-- `SUM(cr.total_savings)` over the group: SQL `SUM` skips NULLs, and the
Python caller maps a NULL (empty) sum to 0 via `row['total_savings'] or 0`. -/
def trend_total_savings (db : DB) (r : RunRow) : ℚ :=
  ((trend_join db r).filterMap (fun rc => rc.1.total_savings)).sum

/-- `SUM(CASE WHEN cs.cluster_type = 'current' THEN cs.total_price ELSE 0 END)`. -/
def trend_total_current (db : DB) (r : RunRow) : ℚ :=
  ((trend_join db r).map
    (fun rc => if rc.2.cluster_type == "current" then rc.2.total_price else 0)).sum

/-- `SUM(CASE WHEN cs.cluster_type = 'optimal' THEN cs.total_price ELSE 0 END)`. -/
def trend_total_optimal (db : DB) (r : RunRow) : ℚ :=
  ((trend_join db r).map
    (fun rc => if rc.2.cluster_type == "optimal" then rc.2.total_price else 0)).sum

/-- The dict appended per run in the `get_total_savings_trend` loop
(`aa_database.py` lines 656-669). -/
def trend_entry_for (db : DB) (r : RunRow) : TrendEntry :=
  let total_current := trend_total_current db r
  let total_optimal := trend_total_optimal db r
  let total_savings := trend_total_savings db r
  { timestamp := r.run_timestamp, jira_ticket := r.jira_ticket,
    total_current := round2 total_current,
    total_optimal := round2 total_optimal,
    total_savings := round2 total_savings,
    savings_percent :=
      if total_current > 0 then round2 ((total_current - total_optimal) / total_current * 100)
      else 0 }

/-- Insert a run into a list kept in descending `run_timestamp` order
(model of SQLite `ORDER BY r.run_timestamp DESC`). -/
def insert_run_desc (r : RunRow) : List RunRow → List RunRow
  | [] => [r]
  | x :: xs =>
    if r.run_timestamp ≤ x.run_timestamp then x :: insert_run_desc r xs
    else r :: x :: xs

/-- Sort runs by `run_timestamp` descending. -/
def sort_runs_desc (l : List RunRow) : List RunRow :=
  l.foldr insert_run_desc []

/-- `get_total_savings_trend` (`aa_database.py` lines 629-671): the inner
join keeps only completed runs that have at least one success result with
at least one `cluster_singles` row; groups are ordered by run timestamp
descending, limited, and mapped to trend entries. -/
def get_total_savings_trend (db : DB) (limit : Nat) : List TrendEntry :=
  let grouped := db.runs.filter
    (fun r => r.status == "completed" && !(trend_join db r).isEmpty)
  ((sort_runs_desc grouped).take limit).map (trend_entry_for db)

/-- `Price` dataclass (`aa_report_automation.py`); `total` is the derived
property `storage + instance`. -/
structure Price where
  storage : ℚ
  instance_price : ℚ
deriving DecidableEq, Repr

/-- `Price.total` property. -/
def Price.total (p : Price) : ℚ := p.storage + p.instance_price

/-- `Cluster` dataclass: single cluster configuration. -/
structure Cluster where
  uid : String
  infra : List (String × Nat)
  price : Price
deriving DecidableEq, Repr

/-- `MultiCluster` dataclass. -/
structure MultiCluster where
  uid : String
  clusters : List Cluster
deriving DecidableEq, Repr

/-- `MultiClusterResult` dataclass: current/optimal pairs. -/
structure MultiClusterResult where
  uid : String
  clusters : List (Cluster × Cluster)
deriving DecidableEq, Repr

/-- Observable trace of one call of a function wrapped by the `retry`
decorator (`aa_report_automation.py` lines 153-170): the final outcome
(`.ok none` models the Python `None` returned when the `for` loop body
never runs, i.e. `max_tries < 1`), the number of invocations of the
wrapped callable, and the list of delays slept, in order. -/
structure RetryTrace (ε α : Type) where
  result : Except ε (Option α)
  calls : Nat
  sleeps : List ℚ

/-- The `for attempt in range(1, max_tries + 1)` loop of the `retry`
wrapper, starting at `attempt` with current `delay`.  `f k` is the outcome
of the k-th invocation of the wrapped callable. -/
def retry_go (f : Nat → Except ε α) (max_tries : Nat) (backoff_factor : ℚ) :
    Nat → ℚ → RetryTrace ε α
  | attempt, delay =>
    if _h : max_tries < attempt then { result := .ok none, calls := 0, sleeps := [] }
    else
      match f attempt with
      | .ok v => { result := .ok (some v), calls := 1, sleeps := [] }
      | .error e =>
        if attempt = max_tries then { result := .error e, calls := 1, sleeps := [] }
        else
          let rest := retry_go f max_tries backoff_factor (attempt + 1) (delay * backoff_factor)
          { result := rest.result, calls := rest.calls + 1, sleeps := delay :: rest.sleeps }
  termination_by attempt _ => max_tries + 1 - attempt
  decreasing_by omega

/-- The `retry(max_tries, delay_seconds, backoff_factor)` wrapper applied
to a callable whose k-th invocation yields `f k`. -/
def retry_run (f : Nat → Except ε α) (max_tries : Nat)
    (delay_seconds backoff_factor : ℚ) : RetryTrace ε α :=
  retry_go f max_tries backoff_factor 1 delay_seconds

/-- `usd_per_month` sub-document of a blueprint. -/
structure UsdPerMonth where
  cluster : ℚ
  storage : ℚ
deriving DecidableEq, Repr

/-- An AWS `ebs_volume` descriptor on a node. -/
structure EbsVolumeDoc where
  volume_type : Option String
  volume_size : Option ℚ
deriving DecidableEq, Repr

/-- A GCP/Azure disk descriptor (`gcp_disks` / `azure_disks` entries). -/
structure DiskDoc where
  type : Option String
  size : Option ℚ
deriving DecidableEq, Repr

/-- A node of a blueprint document.  Dict keys read with `.get` are
`Option`s; `instance_type` is indexed directly by the converters but read
nowhere by the extractor, so it is `Option` too (a missing key raises in
the converter). -/
structure NodeDoc where
  instance_type : Option String
  availability_zone : Option String
  quorum_only : Option Bool
  ebs_volume : Option EbsVolumeDoc
  gcp_disks : Option (List DiskDoc)
  azure_disks : Option (List DiskDoc)
deriving DecidableEq, Repr

/-- Provider-specific `{'region': ...}` sub-document (`cloud['gcp']`,
`cloud['azure']`). -/
structure RegionDoc where
  region : Option String
deriving DecidableEq, Repr

/-- The `cloud` sub-document of a blueprint. -/
structure CloudDoc where
  provider : Option String
  region : Option String
  gcp : Option RegionDoc
  azure : Option RegionDoc
deriving DecidableEq, Repr

/-- The `cluster` sub-document of a blueprint. -/
structure ClusterInfoDoc where
  name : Option String
  redis_version : Option String
  multi_az : Option Bool
  shards_count : Option Int
  max_shards_count : Option Int
  desired_os_version : Option String
  desired_software_version : Option String
  rof : Option Bool
deriving DecidableEq, Repr

/-- The `metadata` sub-document of a blueprint. -/
structure BPMetadataDoc where
  creation_time : Option String
deriving DecidableEq, Repr

/-- The `blueprint` body of one entry of `blueprint['blueprints']`. -/
structure BlueprintBody where
  cloud : Option CloudDoc
  cluster : Option ClusterInfoDoc
  metadata : Option BPMetadataDoc
  nodes : Option (List NodeDoc)
  usd_per_month : Option UsdPerMonth
deriving DecidableEq, Repr

/-- One entry of `blueprint['blueprints']`. -/
structure BlueprintEntry where
  cluster_uid : String
  blueprint : BlueprintBody
deriving DecidableEq, Repr

/-- A blueprint document as returned by the RCP client
(`get_multi_cluster_blueprint` / `plan_optimal_multi_cluster`).
`blueprints := none` models a document without the `'blueprints'` key. -/
structure BlueprintDoc where
  blueprints : Option (List BlueprintEntry)
deriving DecidableEq, Repr

/-- The dict built by `extract_cluster_metadata`
(`aa_report_automation.py` lines 263-397).  It has MORE keys than
`save_cluster_metadata` accepts: the keys from `creation_date` on are not
parameters of `save_cluster_metadata`. -/
structure ExtractedMetadata where
  mc_uid : String
  cluster_name : Option String
  cloud_provider : Option String
  region : Option String
  account_id : Option String
  redis_version : Option String
  multi_az : Option Bool
  availability_zones : Option String
  storage_type : Option String
  creation_date : Option String
  shards_count : Option Int
  max_shards_count : Option Int
  total_storage_gb : Option ℚ
  data_nodes_count : Option Nat
  quorum_nodes_count : Option Nat
  total_nodes_count : Option Nat
  os_version : Option String
  software_version : Option String
  rof_enabled : Option Bool
deriving DecidableEq, Repr

/-- Insert a string into an ascending sorted list, dropping duplicates:
used to model Python's `sorted(set(...))`. -/
def insert_sorted_dedup (s : String) : List String → List String
  | [] => [s]
  | x :: xs =>
    if s = x then x :: xs
    else if s < x then s :: x :: xs
    else x :: insert_sorted_dedup s xs

/-- `sorted(set(l))` for strings. -/
def sorted_dedup (l : List String) : List String :=
  l.foldl (fun acc s => insert_sorted_dedup s acc) []

/-- State accumulated by the node loop of `extract_cluster_metadata`. -/
structure NodeScanState where
  azs : List String
  storage_types : List String
  total_storage_gb : ℚ
  data_nodes : Nat
  quorum_nodes : Nat
deriving Repr

/-- One iteration of the `for node in nodes` loop of
`extract_cluster_metadata` (azs, node counts, provider-specific storage
types and sizes).  The az/storage "sets" are kept as raw lists here and
deduplicated/sorted at the end, matching `sorted(set(...))`. -/
def scan_node (provider : String) (st : NodeScanState) (node : NodeDoc) : NodeScanState :=
  let st := match node.availability_zone with
    | some az => { st with azs := st.azs ++ [az] }
    | none => st
  let st :=
    if node.quorum_only.getD false then { st with quorum_nodes := st.quorum_nodes + 1 }
    else { st with data_nodes := st.data_nodes + 1 }
  if provider == "aws" then
    let ebs := node.ebs_volume.getD { volume_type := none, volume_size := none }
    let st := match ebs.volume_type with
      | some t => { st with storage_types := st.storage_types ++ [t] }
      | none => st
    match ebs.volume_size with
      | some sz => { st with total_storage_gb := st.total_storage_gb + sz }
      | none => st
  else if provider == "gcp" then
    (node.gcp_disks.getD []).foldl (fun st disk =>
      let st := match disk.type with
        | some t => { st with storage_types := st.storage_types ++ [t] }
        | none => st
      match disk.size with
        | some sz => { st with total_storage_gb := st.total_storage_gb + sz }
        | none => st) st
  else if provider == "azure" then
    (node.azure_disks.getD []).foldl (fun st disk =>
      let st := match disk.type with
        | some t => { st with storage_types := st.storage_types ++ [t] }
        | none => st
      match disk.size with
        | some sz => { st with total_storage_gb := st.total_storage_gb + sz }
        | none => st) st
  else st

/-- `extract_cluster_metadata(mc_uid, blueprint)`
(`aa_report_automation.py` lines 263-397), a pure function from the raw
blueprint document to the metadata dict. -/
def extract_cluster_metadata (mc_uid : String) (blueprint : Option BlueprintDoc) :
    ExtractedMetadata :=
  let empty : ExtractedMetadata :=
    { mc_uid := mc_uid, cluster_name := none, cloud_provider := none,
      region := none, account_id := none, redis_version := none,
      multi_az := none, availability_zones := none, storage_type := none,
      creation_date := none, shards_count := none, max_shards_count := none,
      total_storage_gb := none, data_nodes_count := none,
      quorum_nodes_count := none, total_nodes_count := none,
      os_version := none, software_version := none, rof_enabled := none }
  match blueprint with
  | none => empty
  | some doc =>
    match doc.blueprints with
    | none => empty
    | some [] => empty
    | some (first :: _) =>
      let first_bp := first.blueprint
      let cloud := first_bp.cloud.getD
        { provider := none, region := none, gcp := none, azure := none }
      let provider := (cloud.provider.getD "").toLower
      let cloud_provider :=
        if provider = "aws" then some "AWS"
        else if provider = "gcp" then some "GCP"
        else if provider = "azure" then some "Azure"
        else none
      let region :=
        if provider = "aws" then some (cloud.region.getD "")
        else if provider = "gcp" then some ((cloud.gcp.getD { region := none }).region.getD "")
        else if provider = "azure" then some ((cloud.azure.getD { region := none }).region.getD "")
        else none
      let cluster := first_bp.cluster.getD
        { name := none, redis_version := none, multi_az := none,
          shards_count := none, max_shards_count := none,
          desired_os_version := none, desired_software_version := none,
          rof := none }
      let creation_time := (first_bp.metadata.getD { creation_time := none }).creation_time.getD ""
      let creation_date :=
        if creation_time = "" then none
        else if creation_time.contains 'T' then some ((creation_time.splitOn "T").headD "")
        else some creation_time
      let nodes := first_bp.nodes.getD []
      let scan := nodes.foldl (scan_node provider)
        { azs := [], storage_types := [], total_storage_gb := 0,
          data_nodes := 0, quorum_nodes := 0 }
      { empty with
          cloud_provider := cloud_provider,
          region := region,
          cluster_name := some (cluster.name.getD ""),
          redis_version := some (cluster.redis_version.getD ""),
          multi_az := some (cluster.multi_az.getD false),
          shards_count := cluster.shards_count,
          max_shards_count := cluster.max_shards_count,
          os_version := some (cluster.desired_os_version.getD ""),
          software_version := some (cluster.desired_software_version.getD ""),
          rof_enabled := some (cluster.rof.getD false),
          creation_date := creation_date,
          availability_zones :=
            some (String.intercalate "," (sorted_dedup scan.azs)),
          storage_type :=
            some (String.intercalate "," (sorted_dedup scan.storage_types)),
          total_storage_gb :=
            if scan.total_storage_gb > 0 then some scan.total_storage_gb else none,
          data_nodes_count := some scan.data_nodes,
          quorum_nodes_count := some scan.quorum_nodes,
          total_nodes_count := some (scan.data_nodes + scan.quorum_nodes) }

/-- `dict(Counter(l))`: count occurrences preserving first-seen key order. -/
def counter_of (l : List String) : List (String × Nat) :=
  l.foldl (fun acc s =>
    if acc.any (fun p => p.1 == s) then
      acc.map (fun p => if p.1 == s then (p.1, p.2 + 1) else p)
    else acc ++ [(s, 1)]) []

/-- Look up a required dict key, raising a KeyError if missing. -/
def require_key (o : Option α) (key : String) : Except String α :=
  match o with
  | some v => .ok v
  | none => .error ("KeyError: " ++ key)

/-- `convert_blueprint_to_dataclass(mc_uid, mc_bp)`
(`aa_report_automation.py` lines 231-242): direct dict indexing, so a
missing key raises. -/
def convert_blueprint_to_dataclass (mc_uid : String) (mc_bp : BlueprintDoc) :
    Except String MultiCluster := do
  let bps ← require_key mc_bp.blueprints "blueprints"
  let singles ← bps.mapM (fun single => do
    let blueprint := single.blueprint
    let upm ← require_key blueprint.usd_per_month "usd_per_month"
    let nodes ← require_key blueprint.nodes "nodes"
    let types ← nodes.mapM (fun n => require_key n.instance_type "instance_type")
    let infra := counter_of types
    let price : Price :=
      { storage := round2 upm.storage, instance_price := round2 upm.cluster }
    return ({ uid := single.cluster_uid, infra := infra, price := price } : Cluster))
  return { uid := mc_uid, clusters := singles }

/-- `convert_plan_to_dataclass(mc_uid, optimal_plan)`
(`aa_report_automation.py` lines 245-256): textually identical to
`convert_blueprint_to_dataclass` in the source. -/
def convert_plan_to_dataclass (mc_uid : String) (optimal_plan : BlueprintDoc) :
    Except String MultiCluster :=
  convert_blueprint_to_dataclass mc_uid optimal_plan

/-- `[...][0]` indexing on a possibly-empty Python list: IndexError when
empty. -/
def require_first (o : Option α) : Except String α :=
  match o with
  | some v => .ok v
  | none => .error "IndexError: list index out of range"

/-- The `try:` body of `handle_aa_cluster` (`aa_report_automation.py`
lines 404-442).  The RCP client calls are passed in as oracles (`Except`
outcomes).  Two call sites raise unconditionally in the source:

* `db.save_cluster_metadata(**metadata)` — the metadata dict contains
  keyword arguments (`creation_date`, `shards_count`, `max_shards_count`,
  `total_storage_gb`, `data_nodes_count`, `quorum_nodes_count`,
  `total_nodes_count`, `os_version`, `software_version`, `rof_enabled`)
  that the signature of `save_cluster_metadata` does not accept, so Python
  raises `TypeError` before the function body runs: nothing is written.
* `db.save_cluster_result(run_id, result)` — the mandatory third
  argument `clusters` is missing, so Python raises `TypeError` without
  entering the function.  (This line is unreachable anyway, being after
  the first raising call.)
-/
def handle_body (db : DB) (run_id : Nat) (mc_uid : String)
    (is_active_r : Except String Bool)
    (blueprint_r plan_r : Except String BlueprintDoc) :
    Except String (Option MultiClusterResult × DB) := do
  if is_cluster_processed db run_id mc_uid then
    return (none, db)
  let active ← is_active_r
  if !active then
    return (none, db)
  let current_bp ← blueprint_r
  let metadata := extract_cluster_metadata mc_uid (some current_bp)
  let _ := metadata
  let _ ← (Except.error
    "TypeError: save_cluster_metadata() got an unexpected keyword argument" :
    Except String Unit)
  let current_mc ← convert_blueprint_to_dataclass mc_uid current_bp
  let optimal_plan ← plan_r
  let optimal_mc ← convert_plan_to_dataclass mc_uid optimal_plan
  let clusters ← current_mc.clusters.mapM (fun current_single => do
    let matching ← require_first
      ((optimal_mc.clusters.filter (fun c => current_single.uid == c.uid)).head?)
    return (current_single, matching))
  let result : MultiClusterResult := { uid := mc_uid, clusters := clusters }
  let _ ← (Except.error
    "TypeError: save_cluster_result() missing 1 required positional argument" :
    Except String Unit)
  return (some result, db)

/-- `handle_aa_cluster`: the `except Exception` handler only logs the
error and returns `None`; it neither re-raises nor writes anything to the
database (`mark_cluster_failed` is never called). -/
def handle_aa_cluster (db : DB) (run_id : Nat) (mc_uid : String)
    (is_active_r : Except String Bool)
    (blueprint_r plan_r : Except String BlueprintDoc) :
    Option MultiClusterResult × DB :=
  match handle_body db run_id mc_uid is_active_r blueprint_r plan_r with
  | .ok r => r
  | .error _ => (none, db)

/-- `ADJUSTMENT_FACTOR = 0.6` (`app.py` line 54): 40% reduction, shows 60%
of the original. -/
def ADJUSTMENT_FACTOR : ℚ := 0.6

/-- The `cluster_results` rows selected by the dashboard metrics queries
(`app.py` lines 233-246): the run's success results with
`total_savings > 0` (a NULL `total_savings` fails the SQL comparison). -/
def dash_positive_results (db : DB) (run_id : Nat) : List ClusterResultRow :=
  db.cluster_results.filter (fun r =>
    r.run_id == run_id && r.status == "success" &&
      (match r.total_savings with
       | some v => decide (0 < v)
       | none => false))

/-- The subquery `SELECT SUM(total_savings) FROM cluster_results WHERE
run_id = ? AND status = 'success' AND total_savings > 0`, with the
caller's `or 0` applied (`app.py` line 248). -/
def dash_total_savings (db : DB) (run_id : Nat) : ℚ :=
  ((dash_positive_results db run_id).filterMap (fun r => r.total_savings)).sum

/-- The `cluster_singles` rows joined to the positive-savings results. -/
def dash_joined_singles (db : DB) (run_id : Nat) : List ClusterSingleRow :=
  (dash_positive_results db run_id).flatMap
    (fun cr => db.cluster_singles.filter (fun cs => cs.result_id == cr.result_id))

/-- `SUM(CASE WHEN cs.cluster_type = 'current' THEN cs.total_price ELSE 0
END)` over the join, with `or 0` (`app.py` line 249). -/
def dash_total_current (db : DB) (run_id : Nat) : ℚ :=
  ((dash_joined_singles db run_id).map
    (fun cs => if cs.cluster_type == "current" then cs.total_price else 0)).sum

/-- The headline financial metrics of the dashboard `metrics` dict
(`app.py` lines 306-313 and 382-384). -/
structure DashboardFinancials where
  monthly_savings : ℚ
  monthly_savings_rcp_blueprint : ℚ
  annual_roi : ℚ
  annual_roi_rcp_blueprint : ℚ
  total_aa_spend : ℚ
  total_aa_spend_rcp_blueprint : ℚ
deriving DecidableEq, Repr

/-- The financial entries of the `metrics` dict built by the `dashboard`
route, with the literal `0.6` factors of `app.py` lines 308, 311 and 383. -/
def dashboard_financials (db : DB) (run_id : Nat) : DashboardFinancials :=
  let total_savings := dash_total_savings db run_id
  let total_current := dash_total_current db run_id
  { monthly_savings := round2 (total_savings * 0.6),
    monthly_savings_rcp_blueprint := round2 total_savings,
    annual_roi := round2 (total_savings * 12 * 0.6),
    annual_roi_rcp_blueprint := round2 (total_savings * 12),
    total_aa_spend := round2 (total_current * 0.6),
    total_aa_spend_rcp_blueprint := round2 total_current }

/-- Well-formedness guaranteed by the `UNIQUE(run_id, mc_uid)` constraint:
no two result rows share a `(run_id, mc_uid)` pair. -/
def unique_result_pairs (db : DB) : Prop :=
  ∀ r ∈ db.cluster_results, ∀ r' ∈ db.cluster_results,
    r.run_id = r'.run_id → r.mc_uid = r'.mc_uid → r = r'

/-- A fresh in-progress run row, used as a concrete test fixture. -/
def fresh_run (rid ts : Nat) : RunRow :=
  { run_id := rid, run_timestamp := ts, jira_ticket := some "AA-1",
    total_clusters := 2, processed_clusters := 0, failed_clusters := 0,
    status := "in_progress", csv_path := none, completed_at := none }

/-- An otherwise empty database holding one fresh run. -/
def empty_db_with_run (rid ts : Nat) : DB :=
  { runs := [fresh_run rid ts], cluster_results := [], cluster_singles := [],
    cluster_metadata := [], next_result_id := 1, next_single_id := 1 }

def c6_pair : ClusterDict × ClusterDict :=
  ({ uid := "c1", infra := [("m5.large", 3)],
     price := { instance_price := 600, storage := 400, total := 1000 } },
   { uid := "c1", infra := [("m5.large", 2)],
     price := { instance_price := 400, storage := 250, total := 650 } })

def c6_db0 : DB := empty_db_with_run 1 10

def c6_db1 : DB := (save_cluster_result c6_db0 1 "mc-a" [c6_pair] 11).toOption.getD c6_db0

def c7_pair : ClusterDict × ClusterDict :=
  ({ uid := "z1", infra := [],
     price := { instance_price := 0, storage := 0, total := 0 } },
   { uid := "z1", infra := [],
     price := { instance_price := 30, storage := 20, total := 50 } })

def c7_db0 : DB := empty_db_with_run 1 6

def c7_db1 : DB := (save_cluster_result c7_db0 1 "mc-z" [c7_pair] 7).toOption.getD c7_db0

def c5_db : DB :=
  { runs := [fresh_run 1 20],
    cluster_results :=
      [{ result_id := 1, run_id := 1, mc_uid := "mc-a", processed_at := 21,
         status := "failed", error_message := some "blueprint fetch timeout",
         total_savings := none, savings_percent := none },
       { result_id := 2, run_id := 1, mc_uid := "mc-b", processed_at := 22,
         status := "success", error_message := none,
         total_savings := some 100, savings_percent := some 20 }],
    cluster_singles := [], cluster_metadata := [],
    next_result_id := 3, next_single_id := 1 }

def c10_pair : ClusterDict × ClusterDict :=
  ({ uid := "c1", infra := [("m5.large", 3)],
     price := { instance_price := 600, storage := 400, total := 1000 } },
   { uid := "c1", infra := [("m5.large", 2)],
     price := { instance_price := 400, storage := 250, total := 650 } })

def c10_db0 : DB := empty_db_with_run 1 4

def c10_db : DB := (save_cluster_result c10_db0 1 "mc-a" [c10_pair] 5).toOption.getD c10_db0

def c10_succ : DB := (save_cluster_result c10_db0 1 "mc-b" [] 5).toOption.getD c10_db0

def c2_pair : ClusterDict × ClusterDict :=
  ({ uid := "c1", infra := [("m5.large", 3)],
     price := { instance_price := 600, storage := 400, total := 1000 } },
   { uid := "c1", infra := [("m5.large", 2)],
     price := { instance_price := 400, storage := 250, total := 650 } })

def c2_db0 : DB := empty_db_with_run 1 10

def c2_db1 : DB := (save_cluster_result c2_db0 1 "mc-a" [c2_pair] 11).toOption.getD c2_db0

def c1_pair_neg : ClusterDict × ClusterDict :=
  ({ uid := "a1", infra := [("m5.large", 1)],
     price := { instance_price := 60, storage := 40, total := 100 } },
   { uid := "a1", infra := [("m5.large", 2)],
     price := { instance_price := 90, storage := 60, total := 150 } })

def c1_pair_pos : ClusterDict × ClusterDict :=
  ({ uid := "b1", infra := [("r5.large", 4)],
     price := { instance_price := 700, storage := 300, total := 1000 } },
   { uid := "b1", infra := [("r5.large", 3)],
     price := { instance_price := 550, storage := 250, total := 800 } })

def c1_db0 : DB := empty_db_with_run 1 100

def c1_db1 : DB := (save_cluster_result c1_db0 1 "mc-neg" [c1_pair_neg] 101).toOption.getD c1_db0

def c1_db2 : DB := (save_cluster_result c1_db1 1 "mc-pos" [c1_pair_pos] 102).toOption.getD c1_db1

def c1_db : DB := complete_run c1_db2 1 none 103

/-- C1 counterexample: a completed run holding one success with
`total_savings = -50` and one with `total_savings = 200` (one
current/optimal pair each) is reported by `get_total_savings_trend` with
`total_savings = 300`, not the claimed `200`: the negative result is not
excluded, and each result's `total_savings` is counted once per joined
`cluster_singles` row. -/
def c1_db_lit : DB :=
  { runs := [{ run_id := 1, run_timestamp := 100, jira_ticket := some "AA-1",
               total_clusters := 2, processed_clusters := 2, failed_clusters := 0,
               status := "completed", csv_path := none, completed_at := some 103 }],
    cluster_results :=
      [{ result_id := 1, run_id := 1, mc_uid := "mc-neg", processed_at := 101,
         status := "success", error_message := none,
         total_savings := some (-50), savings_percent := some (-50) },
       { result_id := 2, run_id := 1, mc_uid := "mc-pos", processed_at := 102,
         status := "success", error_message := none,
         total_savings := some 200, savings_percent := some 20 }],
    cluster_singles :=
      [{ single_id := 1, result_id := 1, cluster_uid := "a1", cluster_type := "current",
         infra_json := [("m5.large", 1)], instance_price := 60, storage_price := 40,
         total_price := 100, total_instances := some 1 },
       { single_id := 2, result_id := 1, cluster_uid := "a1", cluster_type := "optimal",
         infra_json := [("m5.large", 2)], instance_price := 90, storage_price := 60,
         total_price := 150, total_instances := some 2 },
       { single_id := 3, result_id := 2, cluster_uid := "b1", cluster_type := "current",
         infra_json := [("r5.large", 4)], instance_price := 700, storage_price := 300,
         total_price := 1000, total_instances := some 4 },
       { single_id := 4, result_id := 2, cluster_uid := "b1", cluster_type := "optimal",
         infra_json := [("r5.large", 3)], instance_price := 550, storage_price := 250,
         total_price := 800, total_instances := some 3 }],
    cluster_metadata := [], next_result_id := 3, next_single_id := 5 }

def c1_lit1 : DB :=
  { runs := [fresh_run 1 100],
    cluster_results :=
      [{ result_id := 1, run_id := 1, mc_uid := "mc-neg", processed_at := 101,
         status := "success", error_message := none,
         total_savings := some (-50), savings_percent := some (-50) }],
    cluster_singles :=
      [{ single_id := 1, result_id := 1, cluster_uid := "a1", cluster_type := "current",
         infra_json := [("m5.large", 1)], instance_price := 60, storage_price := 40,
         total_price := 100, total_instances := some 1 },
       { single_id := 2, result_id := 1, cluster_uid := "a1", cluster_type := "optimal",
         infra_json := [("m5.large", 2)], instance_price := 90, storage_price := 60,
         total_price := 150, total_instances := some 2 }],
    cluster_metadata := [], next_result_id := 2, next_single_id := 3 }

/-- A concrete callable: fails twice, succeeds with 42 on the third call. -/
def retry_probe (j : Nat) : Except String Nat :=
  if j == 3 then .ok 42 else .error "boom"

/-- Every run of `handle_aa_cluster` returns `None` and leaves the database
untouched: each reachable path either skips, or reaches the
unconditionally-raising `save_cluster_metadata(**metadata)` call, whose
`TypeError` the `except` block swallows. -/
theorem handle_aa_cluster_unchanged (db : DB) (run_id : Nat) (mc_uid : String)
    (is_active_r : Except String Bool)
    (blueprint_r plan_r : Except String BlueprintDoc) :
    handle_aa_cluster db run_id mc_uid is_active_r blueprint_r plan_r = (none, db) := by
  unfold handle_aa_cluster handle_body
  cases hp : is_cluster_processed db run_id mc_uid <;>
    cases is_active_r <;> cases blueprint_r <;> cases plan_r <;>
    simp [Bind.bind, Except.bind, Pure.pure, Except.pure] <;>
    rename_i b _ _ <;> cases b <;> simp

/-- The singles-insertion loop of `save_cluster_result` never touches the
`cluster_results` table. -/
lemma save_singles_preserve_results (rid : Nat) :
    ∀ (l : List (ClusterDict × ClusterDict)) (d : DB),
    (l.foldl (fun d p =>
        insert_single (insert_single d rid p.1 "current") rid p.2 "optimal") d).cluster_results
      = d.cluster_results := by
  intro l
  induction l with
  | nil => intro d; rfl
  | cons p t ih => intro d; rw [List.foldl_cons, ih]; rfl

/-- Shape of the `cluster_results` table after a successful
`save_cluster_result`: the pair's old row (if any, necessarily childless)
is gone and the freshly numbered success row sits at the end. -/
lemma save_cluster_result_ok_shape (db : DB) (run_id : Nat) (mc_uid : String)
    (clusters : List (ClusterDict × ClusterDict)) (now : Nat) (db' : DB)
    (h : save_cluster_result db run_id mc_uid clusters now = .ok db') :
    db'.cluster_results =
      db.cluster_results.filter (fun r => !(r.run_id == run_id && r.mc_uid == mc_uid)) ++
        [{ result_id := db.next_result_id, run_id := run_id, mc_uid := mc_uid,
           processed_at := now, status := "success", error_message := none,
           total_savings := some (total_current_of clusters - total_optimal_of clusters),
           savings_percent := some (if total_current_of clusters > 0 then
             (total_current_of clusters - total_optimal_of clusters)
               / total_current_of clusters * 100 else 0) }] := by
  unfold save_cluster_result at h
  split at h
  · exact absurd h (by simp)
  · rename_i db1 rid heq
    injection h with h1
    subst h1
    unfold insert_or_replace_result at heq
    by_cases hc : (result_conflicts db run_id mc_uid).any (fun r => has_child_single db r.result_id)
    · rw [if_pos hc] at heq
      exact absurd heq (by simp)
    · rw [if_neg hc] at heq
      injection heq with h2
      injection h2 with h3 h4
      rw [← h3, save_singles_preserve_results]

/-- C5: `is_cluster_processed(run_id, mc_uid)` is true iff a
`cluster_results` row exists for the pair with status `'success'`; in
particular it is false for a `'failed'` prior attempt and false when no
row exists. -/
theorem is_cluster_processed_iff_success_row (db : DB) (run_id : Nat) (mc_uid : String)
    (h : unique_result_pairs db) :
    is_cluster_processed db run_id mc_uid = true ↔
      ∃ r ∈ db.cluster_results, r.run_id = run_id ∧ r.mc_uid = mc_uid ∧ r.status = "success" := by
  unfold is_cluster_processed
  cases hf : db.cluster_results.find? (fun r => r.run_id == run_id && r.mc_uid == mc_uid) with
  | none =>
    simp only [Bool.false_eq_true, false_iff]
    rintro ⟨r, hr, h1, h2, _⟩
    have := List.find?_eq_none.mp hf r hr
    simp [h1, h2] at this
  | some row =>
    have hmem := List.mem_of_find?_eq_some hf
    have hpred := List.find?_some hf
    simp only [Bool.and_eq_true, beq_iff_eq] at hpred
    constructor
    · intro hs
      exact ⟨row, hmem, hpred.1, hpred.2, by simpa using hs⟩
    · rintro ⟨r, hr, h1, h2, h3⟩
      have hr_eq : r = row :=
        h r hr row hmem (by rw [h1, hpred.1]) (by rw [h2, hpred.2])
      have hs : row.status = "success" := by rw [← hr_eq]; exact h3
      simp [hs]

/-- C6: a successful `save_cluster_result` stores, at write time,
`total_savings = Σ current.total − Σ optimal.total` and, when the current
sum is positive, `savings_percent = total_savings / Σ current.total * 100`. -/
theorem save_cluster_result_stores_savings (db : DB) (run_id : Nat) (mc_uid : String)
    (clusters : List (ClusterDict × ClusterDict)) (now : Nat) (db' : DB)
    (h : save_cluster_result db run_id mc_uid clusters now = .ok db')
    (hpos : 0 < total_current_of clusters) :
    db'.cluster_results.getLast? = some
      { result_id := db.next_result_id, run_id := run_id, mc_uid := mc_uid,
        processed_at := now, status := "success", error_message := none,
        total_savings := some (total_current_of clusters - total_optimal_of clusters),
        savings_percent := some ((total_current_of clusters - total_optimal_of clusters)
          / total_current_of clusters * 100) } := by
  rw [save_cluster_result_ok_shape db run_id mc_uid clusters now db' h]
  rw [List.getLast?_concat, if_pos hpos]

/-- C7: with a zero current-price sum, `save_cluster_result` stores
`savings_percent = 0` (the division is guarded), and
`get_total_savings_trend` reports `savings_percent = 0` for a run whose
current total is 0. -/
theorem zero_denominator_guard :
    (∀ (db : DB) (run_id : Nat) (mc_uid : String)
       (clusters : List (ClusterDict × ClusterDict)) (now : Nat) (db' : DB),
       save_cluster_result db run_id mc_uid clusters now = .ok db' →
       total_current_of clusters = 0 →
       db'.cluster_results.getLast? = some
         { result_id := db.next_result_id, run_id := run_id, mc_uid := mc_uid,
           processed_at := now, status := "success", error_message := none,
           total_savings := some (total_current_of clusters - total_optimal_of clusters),
           savings_percent := some 0 })
  ∧ (∀ (db : DB) (r : RunRow), trend_total_current db r = 0 →
       (trend_entry_for db r).savings_percent = 0) := by
  constructor
  · intro db run_id mc_uid clusters now db' h hz
    rw [save_cluster_result_ok_shape db run_id mc_uid clusters now db' h]
    rw [List.getLast?_concat, if_neg (by rw [hz]; exact lt_irrefl 0)]
  · intro db r hz
    simp [trend_entry_for, hz]

/-- C10 (amended): whenever `mark_cluster_failed` returns successfully,
`is_cluster_processed` is false for the pair afterwards. -/
theorem mark_cluster_failed_clears_processed (db : DB) (run_id : Nat) (mc_uid : String)
    (msg : String) (now : Nat) (db' : DB)
    (h : mark_cluster_failed db run_id mc_uid msg now = .ok db') :
    is_cluster_processed db' run_id mc_uid = false := by
  unfold mark_cluster_failed at h
  split at h
  · exact absurd h (by simp)
  · rename_i db1 rid heq
    injection h with h1
    subst h1
    unfold insert_or_replace_result at heq
    split at heq
    · exact absurd heq (by simp)
    · injection heq with h2
      injection h2 with h3 h4
      rw [← h3]
      unfold is_cluster_processed
      have hnone : (db.cluster_results.filter
          (fun r => !(r.run_id == run_id && r.mc_uid == mc_uid))).find?
          (fun r => r.run_id == run_id && r.mc_uid == mc_uid) = none := by
        rw [List.find?_eq_none]
        intro x hx
        have hpx := (List.mem_filter.mp hx).2
        simp only [Bool.not_eq_true'] at hpx
        simp [hpx]
      rw [List.find?_append, hnone]
      simp [List.find?]

/-- Witness for C6 at the spec's example figures: current 1000.00 and
optimal 650.00 store `total_savings = 350.00`, `savings_percent = 35.00`. -/
theorem save_cluster_result_stores_savings_witness :
    0 < total_current_of [c6_pair] ∧
    c6_db1.cluster_results.getLast? = some
      { result_id := 1, run_id := 1, mc_uid := "mc-a", processed_at := 11,
        status := "success", error_message := none,
        total_savings := some 350, savings_percent := some 35 } := by
  have hpos : 0 < total_current_of [c6_pair] := by
    norm_num [total_current_of, c6_pair]
  refine ⟨hpos, ?_⟩
  have h := save_cluster_result_stores_savings c6_db0 1 "mc-a" [c6_pair] 11 c6_db1 rfl hpos
  rw [h]
  norm_num [total_current_of, total_optimal_of, c6_pair, c6_db0, empty_db_with_run]

/-- Witness for C7: a zero current total stores `savings_percent = 0`, and
the trend entry for a run with current total 0 reports `savings_percent = 0`. -/
theorem zero_denominator_guard_witness :
    c7_db1.cluster_results.getLast? = some
      { result_id := 1, run_id := 1, mc_uid := "mc-z", processed_at := 7,
        status := "success", error_message := none,
        total_savings := some (-50), savings_percent := some 0 } ∧
    (trend_entry_for c7_db0 (fresh_run 1 6)).savings_percent = 0 := by
  have hz : total_current_of [c7_pair] = 0 := by
    norm_num [total_current_of, c7_pair]
  constructor
  · have h := zero_denominator_guard.1 c7_db0 1 "mc-z" [c7_pair] 7 c7_db1 rfl hz
    rw [h]
    norm_num [total_current_of, total_optimal_of, c7_pair, c7_db0, empty_db_with_run]
  · exact zero_denominator_guard.2 c7_db0 (fresh_run 1 6) rfl

/-- Witness for C5 on a database with a failed attempt for `mc-a`. -/
theorem is_cluster_processed_iff_success_row_witness :
    unique_result_pairs c5_db ∧
    (is_cluster_processed c5_db 1 "mc-a" = true ↔
      ∃ r ∈ c5_db.cluster_results,
        r.run_id = 1 ∧ r.mc_uid = "mc-a" ∧ r.status = "success") := by
  have huniq : unique_result_pairs c5_db := by
    intro r hr r' hr' h1 h2
    simp only [c5_db, List.mem_cons, List.not_mem_nil, or_false] at hr hr'
    rcases hr with rfl | rfl <;> rcases hr' with rfl | rfl <;> simp_all
  exact ⟨huniq, is_cluster_processed_iff_success_row c5_db 1 "mc-a" huniq⟩

/-- C10 counterexample: for a success saved with cluster pairs (so with
`cluster_singles` children), `mark_cluster_failed` does NOT replace it but
fails with a foreign-key error, leaving the pair processed. -/
theorem mark_cluster_failed_on_success_with_children :
    is_cluster_processed c10_db 1 "mc-a" = true ∧
    mark_cluster_failed c10_db 1 "mc-a" "late failure" 9 =
      .error "FOREIGN KEY constraint failed" :=
  ⟨rfl, rfl⟩

/-- Witness for C10 (amended) on a childless success row, the one case
where the failure upsert can succeed. -/
theorem mark_cluster_failed_clears_processed_witness :
    is_cluster_processed
      ((mark_cluster_failed c10_succ 1 "mc-b" "boom" 9).toOption.getD c10_succ) 1 "mc-b"
      = false :=
  mark_cluster_failed_clears_processed c10_succ 1 "mc-b" "boom" 9
    ((mark_cluster_failed c10_succ 1 "mc-b" "boom" 9).toOption.getD c10_succ) rfl

/-- C2: saving a success result twice for the same (run, cluster) pair does
NOT succeed-and-replace: the first save leaves one result row and two
singles, and the second save aborts with a foreign-key error, leaving the
first attempt's rows in place (the transaction rolls back). -/
theorem save_cluster_result_second_save_fk_error :
    save_cluster_result c2_db0 1 "mc-a" [c2_pair] 11 = .ok c2_db1 ∧
    (c2_db1.cluster_results.filter (fun r => r.run_id == 1 && r.mc_uid == "mc-a")).length = 1 ∧
    c2_db1.cluster_singles.length = 2 ∧
    save_cluster_result c2_db1 1 "mc-a" [c2_pair] 12 =
      .error "FOREIGN KEY constraint failed" :=
  ⟨rfl, rfl, rfl, rfl⟩

/-- C3: when any step of `handle_aa_cluster` raises, the handler swallows
the exception (it is a total function returning `None`) but records
nothing: the `cluster_results` table is unchanged, so no `'failed'` row
with the error text exists afterwards (`mark_cluster_failed` is never
called by the handler). -/
theorem handle_aa_cluster_failure_not_recorded (db : DB) (run_id : Nat) (mc_uid : String)
    (is_active_r : Except String Bool) (blueprint_r plan_r : Except String BlueprintDoc) :
    (handle_aa_cluster db run_id mc_uid is_active_r blueprint_r plan_r).1 = none ∧
    ((handle_aa_cluster db run_id mc_uid is_active_r blueprint_r plan_r).2).cluster_results
      = db.cluster_results := by
  rw [handle_aa_cluster_unchanged]
  exact ⟨rfl, rfl⟩

/-- C4: processing a cluster never persists any metadata (the
`save_cluster_metadata(**metadata)` call raises `TypeError`), and a direct
`save_cluster_metadata` stores only the nine schema fields plus
`last_updated`, with `created_at` (and nothing else) left NULL — the
schema has no columns for shard counts, storage size, node counts, OS
version or feature flags. -/
theorem metadata_persistence_gap (db : DB) (run_id : Nat) (mc_uid : String)
    (is_active_r : Except String Bool) (blueprint_r plan_r : Except String BlueprintDoc)
    (cluster_name cloud_provider region account_id redis_version : Option String)
    (multi_az : Option Bool) (availability_zones storage_type : Option String)
    (now : Nat) :
    ((handle_aa_cluster db run_id mc_uid is_active_r blueprint_r plan_r).2).cluster_metadata
      = db.cluster_metadata ∧
    (save_cluster_metadata db mc_uid cluster_name cloud_provider region account_id
        redis_version multi_az availability_zones storage_type now).cluster_metadata
      = db.cluster_metadata.filter (fun m => !(m.mc_uid == mc_uid)) ++
        [{ mc_uid := mc_uid, cluster_name := cluster_name,
           cloud_provider := cloud_provider, region := region,
           account_id := account_id, redis_version := redis_version,
           multi_az := multi_az.map (fun b => if b then 1 else 0),
           availability_zones := availability_zones, storage_type := storage_type,
           created_at := none, last_updated := some now }] := by
  refine ⟨?_, rfl⟩
  rw [handle_aa_cluster_unchanged]

/-- C9: each headline financial metric of the dashboard equals the stored
aggregate times `ADJUSTMENT_FACTOR = 0.6` rounded to 2 decimals, while the
`*_rcp_blueprint` keys carry the unreduced aggregates. -/
theorem dashboard_financials_adjustment (db : DB) (run_id : Nat) :
    (dashboard_financials db run_id).monthly_savings
      = round2 (ADJUSTMENT_FACTOR * dash_total_savings db run_id) ∧
    (dashboard_financials db run_id).monthly_savings_rcp_blueprint
      = round2 (dash_total_savings db run_id) ∧
    (dashboard_financials db run_id).annual_roi
      = round2 (ADJUSTMENT_FACTOR * (dash_total_savings db run_id * 12)) ∧
    (dashboard_financials db run_id).annual_roi_rcp_blueprint
      = round2 (dash_total_savings db run_id * 12) ∧
    (dashboard_financials db run_id).total_aa_spend
      = round2 (ADJUSTMENT_FACTOR * dash_total_current db run_id) ∧
    (dashboard_financials db run_id).total_aa_spend_rcp_blueprint
      = round2 (dash_total_current db run_id) := by
  refine ⟨?_, ?_, ?_, ?_, ?_, ?_⟩ <;>
    simp only [dashboard_financials, ADJUSTMENT_FACTOR] <;>
    first
      | rfl
      | (congr 1; ring)

/-- Reduction of the upsert when there is no conflicting row with children. -/
lemma insert_or_replace_result_no_conflict (db : DB) (run_id : Nat) (mc_uid : String)
    (processed_at : Nat) (status : String) (error_message : Option String)
    (total_savings savings_percent : Option ℚ)
    (hc : ((result_conflicts db run_id mc_uid).any
      (fun r => has_child_single db r.result_id)) = false) :
    insert_or_replace_result db run_id mc_uid processed_at status error_message
        total_savings savings_percent =
      .ok ({ db with
              cluster_results :=
                db.cluster_results.filter
                  (fun r => !(r.run_id == run_id && r.mc_uid == mc_uid)) ++
                  [{ result_id := db.next_result_id, run_id := run_id, mc_uid := mc_uid,
                     processed_at := processed_at, status := status,
                     error_message := error_message, total_savings := total_savings,
                     savings_percent := savings_percent }],
              next_result_id := db.next_result_id + 1 }, db.next_result_id) := by
  unfold insert_or_replace_result
  rw [hc]
  rfl

lemma c1_step1 : save_cluster_result c1_db0 1 "mc-neg" [c1_pair_neg] 101 = .ok c1_lit1 := by
  unfold save_cluster_result
  rw [insert_or_replace_result_no_conflict _ _ _ _ _ _ _ _ (by decide)]
  norm_num [c1_lit1, c1_db0, empty_db_with_run, fresh_run, insert_single,
    total_current_of, total_optimal_of, sum_infra, c1_pair_neg]

lemma c1_db1_eq : c1_db1 = c1_lit1 := by
  rw [c1_db1, c1_step1]
  rfl

lemma c1_step2 : save_cluster_result c1_lit1 1 "mc-pos" [c1_pair_pos] 102 =
    .ok { c1_db_lit with runs := [fresh_run 1 100] } := by
  unfold save_cluster_result
  rw [insert_or_replace_result_no_conflict _ _ _ _ _ _ _ _ (by decide)]
  norm_num [c1_db_lit, c1_lit1, fresh_run, insert_single,
    total_current_of, total_optimal_of, sum_infra, c1_pair_pos,
    List.filter_cons, List.filter_nil]
  decide

/-- The built database is, up to run-statistics/completion bookkeeping,
exactly the literal one. -/
lemma c1_db_eq_lit : c1_db = c1_db_lit := by
  have h2 : c1_db2 = { c1_db_lit with
      runs := [fresh_run 1 100], next_result_id := 3, next_single_id := 5 } := by
    rw [c1_db2, c1_db1_eq, c1_step2]
    rfl
  rw [c1_db, h2]
  norm_num [complete_run, update_run_statistics, fresh_run, c1_db_lit,
    List.filter_cons, List.filter_nil]
  decide

theorem trend_positivity_filter_counterexample :
    (get_total_savings_trend c1_db 10).map (fun e => e.total_savings) = [(300 : ℚ)] ∧
    (get_total_savings_trend c1_db 10).map (fun e => e.total_savings) ≠ [(200 : ℚ)] := by
  have h : (get_total_savings_trend c1_db 10).map (fun e => e.total_savings) = [(300 : ℚ)] := by
    rw [c1_db_eq_lit]
    norm_num [get_total_savings_trend, sort_runs_desc, insert_run_desc, trend_entry_for,
      trend_total_savings, trend_total_current, trend_total_optimal, trend_join,
      c1_db_lit, List.filter_cons, List.filter_nil, List.flatMap_cons, List.flatMap_nil,
      List.filterMap_cons, List.filterMap_nil, List.map_cons, List.map_nil,
      List.sum_cons, List.sum_nil, List.append_nil, List.take_succ_cons, List.take_nil,
      List.foldr_cons, List.foldr_nil, round2, roundHalfEven]
  refine ⟨h, ?_⟩
  rw [h]
  intro hc
  simp only [List.cons.injEq, and_true] at hc
  norm_num at hc

/-- Summing the savings column over one result's joined singles rows
counts the result's `total_savings` once per child row. -/
lemma sum_filterMap_pairs (cr : ClusterResultRow) (l : List ClusterSingleRow) :
    (((l.map (fun cs => (cr, cs))).filterMap
        (fun rc : ClusterResultRow × ClusterSingleRow => rc.1.total_savings)).sum : ℚ)
      = (l.length : ℚ) * cr.total_savings.getD 0 := by
  cases hts : cr.total_savings with
  | none =>
    induction l with
    | nil => simp
    | cons a t ih => simpa [hts] using ih
  | some v =>
    induction l with
    | nil => simp
    | cons a t ih =>
      simp only [List.map_cons, List.filterMap_cons, hts, List.sum_cons,
        List.length_cons, Option.getD_some] at ih ⊢
      rw [ih]
      push_cast
      ring

/-- The group sum `SUM(cr.total_savings)` of the trend query, re-expressed
per result row: each success result contributes its `total_savings`
multiplied by its number of `cluster_singles` rows. -/
lemma trend_total_savings_eq_weighted (db : DB) (r : RunRow) :
    trend_total_savings db r
      = ((db.cluster_results.filter
            (fun cr => cr.run_id == r.run_id && cr.status == "success")).map
          (fun cr => ((db.cluster_singles.filter
              (fun cs => cs.result_id == cr.result_id)).length : ℚ)
            * cr.total_savings.getD 0)).sum := by
  unfold trend_total_savings trend_join
  generalize (db.cluster_results.filter
    (fun cr => cr.run_id == r.run_id && cr.status == "success")) = L
  induction L with
  | nil => simp
  | cons cr t ih =>
    simp only [List.flatMap_cons, List.filterMap_append, List.sum_append,
      List.map_cons, List.sum_cons, ih, sum_filterMap_pairs]

/-- C1 (amended): each trend entry's `total_savings` is `round2` of the sum
over ALL success results of the run — no positivity filter — where each
result's `total_savings` is counted once per `cluster_singles` row joined
to it (a NULL savings contributing 0). -/
theorem trend_total_savings_weighted_no_filter (db : DB) (r : RunRow) :
    (trend_entry_for db r).total_savings
      = round2 (((db.cluster_results.filter
            (fun cr => cr.run_id == r.run_id && cr.status == "success")).map
          (fun cr => ((db.cluster_singles.filter
              (fun cs => cs.result_id == cr.result_id)).length : ℚ)
            * cr.total_savings.getD 0)).sum) := by
  have h : (trend_entry_for db r).total_savings = round2 (trend_total_savings db r) := rfl
  rw [h, trend_total_savings_eq_weighted]

/-- Run of the retry loop when the first success happens at attempt `k`
(all earlier attempts from `a` on failing): `k + 1 - a` invocations and a
geometric sleep per failed attempt, none after the success. -/
lemma retry_go_succeeds {ε α : Type} (f : Nat → Except ε α) (n : Nat) (b : ℚ)
    (k : Nat) (v : α) :
    ∀ (m a : Nat) (d : ℚ), k - a = m → 1 ≤ a → a ≤ k → k ≤ n →
    (∀ j, a ≤ j → j < k → (f j).toOption = none) → f k = .ok v →
    retry_go f n b a d =
      { result := .ok (some v), calls := k + 1 - a,
        sleeps := (List.range (k - a)).map (fun i => d * b ^ i) } := by
  intro m
  induction m with
  | zero =>
    intro a d hm h1 hak hkn hfail hok
    have hae : a = k := by omega
    subst hae
    unfold retry_go
    rw [dif_neg (by omega), hok]
    simp
  | succ m ih =>
    intro a d hm h1 hak hkn hfail hok
    have halt : a < k := by omega
    cases hfa : f a with
    | ok w =>
      have := hfail a le_rfl halt
      rw [hfa] at this
      simp [Except.toOption] at this
    | error e =>
      unfold retry_go
      rw [dif_neg (show ¬ n < a by omega), hfa]
      simp only [if_neg (show ¬ a = n by omega)]
      rw [ih (a + 1) (d * b) (by omega) (by omega) (by omega) hkn
        (fun j hj hjk => hfail j (by omega) hjk) hok]
      have hcalls : k + 1 - (a + 1) + 1 = k + 1 - a := by omega
      have hrange : k - a = (k - (a + 1)) + 1 := by omega
      rw [hcalls, hrange, List.range_succ_eq_map, List.map_cons, List.map_map]
      simp only [pow_zero, mul_one]
      refine congrArg (fun l => RetryTrace.mk (Except.ok (some v)) (k + 1 - a) (d :: l)) ?_
      refine List.map_congr_left ?_
      intro i _
      simp only [Function.comp_apply, pow_succ]
      ring

/-- Run of the retry loop when all attempts from `a` to `n` fail: `n + 1 - a`
invocations, the exception of the last attempt re-raised, and no sleep
after the final failed attempt. -/
lemma retry_go_exhausts {ε α : Type} (f : Nat → Except ε α) (n : Nat) (b : ℚ)
    (err : Nat → ε) :
    ∀ (m a : Nat) (d : ℚ), n - a = m → 1 ≤ a → a ≤ n →
    (∀ j, a ≤ j → j ≤ n → f j = .error (err j)) →
    retry_go f n b a d =
      { result := .error (err n), calls := n + 1 - a,
        sleeps := (List.range (n - a)).map (fun i => d * b ^ i) } := by
  intro m
  induction m with
  | zero =>
    intro a d hm h1 han hfail
    have hae : a = n := by omega
    subst hae
    unfold retry_go
    rw [dif_neg (by omega), hfail a le_rfl le_rfl]
    simp
  | succ m ih =>
    intro a d hm h1 han hfail
    have halt : a < n := by omega
    unfold retry_go
    rw [dif_neg (show ¬ n < a by omega), hfail a le_rfl (by omega)]
    simp only [if_neg (show ¬ a = n by omega)]
    rw [ih (a + 1) (d * b) (by omega) (by omega) (by omega)
      (fun j hj hjn => hfail j (by omega) hjn)]
    have hcalls : n + 1 - (a + 1) + 1 = n + 1 - a := by omega
    have hrange : n - a = (n - (a + 1)) + 1 := by omega
    rw [hcalls, hrange, List.range_succ_eq_map, List.map_cons, List.map_map]
    simp only [pow_zero, mul_one]
    refine congrArg (fun l => RetryTrace.mk (Except.error (err n)) (n + 1 - a) (d :: l)) ?_
    refine List.map_congr_left ?_
    intro i _
    simp only [Function.comp_apply, pow_succ]
    ring

/-- C8: the retry wrapper invokes the callable up to `max_tries` times.  If
the first success is at attempt `k ≤ max_tries`, its value is returned
after exactly `k` invocations, with the sleeps `d, d·f, …` after each of
the `k − 1` failed attempts.  If all `max_tries` attempts fail, the last
exception is re-raised after exactly `max_tries` invocations and
`max_tries − 1` geometric sleeps (no sleep after the final failure). -/
theorem retry_wrapper_spec {ε α : Type} (f : Nat → Except ε α) (n : Nat) (d b : ℚ) :
    (∀ k v, 1 ≤ k → k ≤ n →
      (∀ j, 1 ≤ j → j < k → (f j).toOption = none) → f k = .ok v →
      retry_run f n d b =
        { result := .ok (some v), calls := k,
          sleeps := (List.range (k - 1)).map (fun i => d * b ^ i) })
  ∧ (∀ err : Nat → ε, 1 ≤ n →
      (∀ j, 1 ≤ j → j ≤ n → f j = .error (err j)) →
      retry_run f n d b =
        { result := .error (err n), calls := n,
          sleeps := (List.range (n - 1)).map (fun i => d * b ^ i) }) := by
  constructor
  · intro k v h1 hkn hfail hok
    have h := retry_go_succeeds f n b k v (k - 1) 1 d (by omega) le_rfl h1 hkn hfail hok
    rw [retry_run, h]
    simp
  · intro err h1 hfail
    have h := retry_go_exhausts f n b err (n - 1) 1 d (by omega) le_rfl h1 hfail
    rw [retry_run, h]
    simp

/-- Witness for C8: `max_tries = 3`, `delay_seconds = 5`,
`backoff_factor = 2`, failure on attempts 1 and 2: three invocations,
sleeps `[5, 10]`, result 42. -/
theorem retry_wrapper_spec_witness :
    retry_run retry_probe 3 5 2 =
      { result := .ok (some 42), calls := 3, sleeps := [5, 10] } := by
  have h := (retry_wrapper_spec retry_probe 3 5 2).1 3 42 (by norm_num) (by norm_num)
    (by intro j h1 h2; interval_cases j <;> rfl) rfl
  rw [h]
  norm_num [List.range_succ]
